import Mathlib

/-!
Verification of the face feature-ID resolution algorithm of the
cesium-unreal plugin, together with the origin-shift component helpers.

The feature-ID resolver (FCesiumPrimitiveFeatures and its Blueprint
library) is exercised by the repository test suite in
Source/CesiumRuntime/Private/Tests/CesiumPrimitiveFeatures.spec.cpp; the
implementation files themselves (CesiumPrimitiveFeatures.cpp,
CesiumFeatureIdSet.cpp) are not part of the sources reviewed here, so the
resolver is modelled from the specification, with the behaviour fixed by
the repository tests wherever the tests pin concrete values.

CesiumOriginShiftComponent.cpp is part of the reviewed sources and is
embedded directly; external engine collaborators (the sub-level switcher,
the georeference, the world) are abstracted as plain state fields.
-/

/-- Modelled from the spec: the mesh topology of a primitive.  The
implementation reads vertexCount from the POSITION accessor and the
optional index buffer from the primitive; neither implementation file is
under the reviewed sources.  Index values are unsigned integers. -/
structure Topology where
  vertexCount : Nat
  indices : Option (List Nat)
deriving DecidableEq, Repr

/-- Modelled from the spec: numFaces is indices.length / 3 when an index
buffer is present, else vertexCount / 3 (triangles only). -/
def numFaces (t : Topology) : Nat :=
  (match t.indices with
   | some l => l.length
   | none => t.vertexCount) / 3

/-- Modelled from the spec: UCesiumPrimitiveFeaturesBlueprintLibrary
GetFirstVertexFromFace.  Returns -1 when faceIndex is out of bounds,
otherwise indices[3 * faceIndex] when an index buffer is present and
3 * faceIndex when it is absent. -/
def GetFirstVertexFromFace (t : Topology) (faceIndex : Int) : Int :=
  if faceIndex < 0 ∨ (numFaces t : Int) ≤ faceIndex then -1
  else
    match t.indices with
    | some l => (l.getD (3 * faceIndex).toNat 0 : Int)
    | none => 3 * faceIndex

/-- Modelled from the spec: the data backing a texture-kind feature-ID
set: a texture-coordinate list (one UV per vertex), an image of
width * height single-channel texels stored row major. -/
structure TextureData where
  width : Nat
  height : Nat
  pixels : List Nat
  texCoords : List (Rat × Rat)
deriving DecidableEq, Repr

/-- Modelled from the spec: the texel index along one image extent for
nearest-neighbour sampling, floor(u * extent) clamped into the image.
The floor is computed as (u.num * extent) / u.den over the integers; the
lemma texelIndex_floor below shows this equals the rational floor. -/
def texelIndex (u : Rat) (extent : Nat) : Nat :=
  min ((u.num * extent) / (u.den : Int)).toNat (extent - 1)

/-- The integer form of the texel index agrees with the clamped floor of
u * extent over the rationals. -/
theorem texelIndex_floor (u : Rat) (extent : Nat) :
    texelIndex u extent =
      min (Rat.floor (u * (extent : Rat))).toNat (extent - 1) := by
  have h : ((u.num * extent : Int) : Rat) / ((u.den : Nat) : Rat) =
      u * (extent : Rat) := by
    push_cast
    conv_rhs => rw [← Rat.num_div_den u]
    ring
  have h2 : Rat.floor (u * (extent : Rat)) = ⌊u * (extent : Rat)⌋ := by
    rw [Rat.floor_def', Rat.floor_def]
  unfold texelIndex
  rw [h2, ← h, Rat.floor_intCast_div_natCast]

/-- Modelled from the spec: nearest-neighbour sampling of the image at a
UV coordinate, reading the single channel of the texel in row-major
order. -/
def nearestSample (td : TextureData) (uv : Rat × Rat) : Int :=
  (td.pixels.getD
    (texelIndex uv.2 td.height * td.width + texelIndex uv.1 td.width) 0 : Int)

/-- Modelled from the spec: a FeatureIdSet is a tagged variant over three
kinds.  An absent or invalid backing accessor is modelled as none.
Attribute values are integers widened to 64-bit signed. -/
inductive FeatureIdSetData where
  | Attribute (buffer : Option (List Int))
  | Texture (td : Option TextureData)
  | Implicit (featureCount : Int)
deriving DecidableEq, Repr

/-- Modelled from the spec and the repository tests: the feature ID of a
single vertex.  The attribute kind reads the buffer at the vertex; the
texture kind samples the image at the UV of the vertex; the implicit kind
yields the vertex index itself when it is below featureCount (the
repository tests at CesiumPrimitiveFeatures.spec.cpp lines 650-684 fix
the implicit ID of vertex 2 with vertexCount 4 and featureCount 6 to 2,
and the empty-set test at lines 304-334 fixes featureCount 0 to the
sentinel; the formula floor(v / (vertexCount / featureCount)) written in
the spec agrees on all of the fixtures of the spec with vertexCount =
featureCount).  Out-of-range or missing data yields the sentinel -1. -/
def GetFeatureIDForVertex (s : FeatureIdSetData) (v : Int) : Int :=
  match s with
  | .Attribute none => -1
  | .Attribute (some buf) =>
      if 0 ≤ v ∧ v < (buf.length : Int) then buf.getD v.toNat 0 else -1
  | .Texture none => -1
  | .Texture (some td) =>
      if 0 ≤ v ∧ v < (td.texCoords.length : Int) then
        nearestSample td (td.texCoords.getD v.toNat (0, 0))
      else -1
  | .Implicit featureCount => if 0 ≤ v ∧ v < featureCount then v else -1

/-- Modelled from the spec: UCesiumPrimitiveFeaturesBlueprintLibrary
GetFeatureIDFromFace.  Computes the first vertex of the face; when that
is the sentinel -1 the sentinel is returned at once, otherwise the
feature ID of that vertex is looked up in the set. -/
def GetFeatureIDFromFace (t : Topology) (s : FeatureIdSetData)
    (faceIndex : Int) : Int :=
  let v := GetFirstVertexFromFace t faceIndex
  if v < 0 then -1 else GetFeatureIDForVertex s v

/-- A valid face has a non-negative first vertex: either an unsigned
index-buffer entry or 3 * faceIndex. -/
theorem firstVertex_nonneg (t : Topology) (f : Int) (h0 : 0 ≤ f)
    (h1 : f < (numFaces t : Int)) : 0 ≤ GetFirstVertexFromFace t f := by
  unfold GetFirstVertexFromFace
  rw [if_neg]
  · cases h : t.indices with
    | none => simpa using h0
    | some l => simp
  · push_neg
    exact ⟨h0, h1⟩

/-- C1: for every topology and every in-bounds face index f,
GetFirstVertexFromFace returns indices[3 * f] when an index buffer is
present and 3 * f when it is absent. -/
theorem C1_getFirstVertexFromFace (t : Topology) (f : Int) (h0 : 0 ≤ f)
    (h1 : f < (numFaces t : Int)) :
    (∀ l, t.indices = some l →
      GetFirstVertexFromFace t f = (l.getD (3 * f).toNat 0 : Int)) ∧
    (t.indices = none → GetFirstVertexFromFace t f = 3 * f) := by
  constructor
  · intro l hl
    unfold GetFirstVertexFromFace
    rw [if_neg, hl]
    push_neg
    exact ⟨h0, h1⟩
  · intro hl
    unfold GetFirstVertexFromFace
    rw [if_neg, hl]
    push_neg
    exact ⟨h0, h1⟩

/-- C1 witness: the indexed and the non-indexed fixtures of the
repository tests evaluated at concrete faces. -/
theorem C1_getFirstVertexFromFace_witness :
    GetFirstVertexFromFace
      { vertexCount := 7, indices := some [0, 1, 2, 0, 2, 3, 4, 5, 6] } 1 =
      0 ∧
    GetFirstVertexFromFace { vertexCount := 9, indices := none } 2 = 6 := by
  constructor
  · have h := C1_getFirstVertexFromFace
      { vertexCount := 7, indices := some [0, 1, 2, 0, 2, 3, 4, 5, 6] } 1
      (by decide) (by decide)
    have h2 := h.1 [0, 1, 2, 0, 2, 3, 4, 5, 6] rfl
    simpa using h2
  · have h := C1_getFirstVertexFromFace
      { vertexCount := 9, indices := none } 2 (by decide) (by decide)
    have h2 := h.2 rfl
    simpa using h2

/-- GetFeatureIDFromFace written without the local let binding. -/
theorem getFeatureIDFromFace_eq (t : Topology) (s : FeatureIdSetData)
    (f : Int) :
    GetFeatureIDFromFace t s f =
      if GetFirstVertexFromFace t f < 0 then -1
      else GetFeatureIDForVertex s (GetFirstVertexFromFace t f) := rfl

/-- C2: out-of-bounds face indices yield the sentinel -1 from both
GetFirstVertexFromFace and GetFeatureIDFromFace, for every feature-ID
set; a degenerate implicit set (featureCount at most zero) and a missing
or invalid backing accessor (attribute or texture) also yield -1, for
every face index.  All the modelled operations are total functions, so no
input can raise an exception. -/
theorem C2_sentinel (t : Topology) (s : FeatureIdSetData) (f : Int) :
    ((f < 0 ∨ (numFaces t : Int) ≤ f) →
      GetFirstVertexFromFace t f = -1 ∧ GetFeatureIDFromFace t s f = -1) ∧
    (∀ fc : Int, fc ≤ 0 →
      GetFeatureIDFromFace t (.Implicit fc) f = -1) ∧
    GetFeatureIDFromFace t (.Attribute none) f = -1 ∧
    GetFeatureIDFromFace t (.Texture none) f = -1 := by
  refine ⟨?_, ?_, ?_, ?_⟩
  · intro h
    have hv : GetFirstVertexFromFace t f = -1 := by
      unfold GetFirstVertexFromFace
      exact if_pos h
    refine ⟨hv, ?_⟩
    rw [getFeatureIDFromFace_eq, hv]
    norm_num
  · intro fc hfc
    rw [getFeatureIDFromFace_eq]
    by_cases hv : GetFirstVertexFromFace t f < 0
    · rw [if_pos hv]
    · rw [if_neg hv]
      simp only [GetFeatureIDForVertex]
      rw [if_neg]
      rintro ⟨h1, h2⟩
      omega
  · rw [getFeatureIDFromFace_eq]
    split <;> rfl
  · rw [getFeatureIDFromFace_eq]
    split <;> rfl

/-- C2 witness: the out-of-bounds, degenerate and missing-accessor cases
evaluated on the fixtures of the repository tests. -/
theorem C2_sentinel_witness :
    GetFirstVertexFromFace
      { vertexCount := 6, indices := some [0, 1, 2, 0, 2, 3] } 2 = -1 ∧
    GetFeatureIDFromFace
      { vertexCount := 6, indices := some [0, 1, 2, 0, 2, 3] }
      (.Implicit 6) 2 = -1 ∧
    GetFeatureIDFromFace
      { vertexCount := 6, indices := some [0, 1, 2, 0, 2, 3] }
      (.Implicit 0) 0 = -1 ∧
    GetFeatureIDFromFace
      { vertexCount := 6, indices := some [0, 1, 2, 0, 2, 3] }
      (.Attribute none) 0 = -1 := by
  refine ⟨?_, ?_, ?_, ?_⟩
  · exact ((C2_sentinel
      { vertexCount := 6, indices := some [0, 1, 2, 0, 2, 3] }
      (.Implicit 6) 2).1 (Or.inr (by decide))).1
  · exact ((C2_sentinel
      { vertexCount := 6, indices := some [0, 1, 2, 0, 2, 3] }
      (.Implicit 6) 2).1 (Or.inr (by decide))).2
  · exact (C2_sentinel
      { vertexCount := 6, indices := some [0, 1, 2, 0, 2, 3] }
      (.Implicit 0) 0).2.1 0 (by decide)
  · exact (C2_sentinel
      { vertexCount := 6, indices := some [0, 1, 2, 0, 2, 3] }
      (.Attribute none) 0).2.2.1

/-- C3: for an attribute-kind set with a valid buffer and a valid face
whose first vertex lies inside the buffer, GetFeatureIDFromFace returns
exactly the buffer entry at the first vertex of the face, for indexed and
non-indexed topologies alike. -/
theorem C3_attribute_feature_id (t : Topology) (buf : List Int) (f : Int)
    (h0 : 0 ≤ f) (h1 : f < (numFaces t : Int))
    (h2 : GetFirstVertexFromFace t f < (buf.length : Int)) :
    GetFeatureIDFromFace t (.Attribute (some buf)) f =
      buf.getD (GetFirstVertexFromFace t f).toNat 0 := by
  have hv := firstVertex_nonneg t f h0 h1
  rw [getFeatureIDFromFace_eq, if_neg (by omega)]
  simp only [GetFeatureIDForVertex]
  rw [if_pos ⟨hv, h2⟩]

/-- C3 witness: the indexed and the non-indexed attribute fixtures of the
repository tests. -/
theorem C3_attribute_feature_id_witness :
    GetFeatureIDFromFace
      { vertexCount := 7, indices := some [0, 1, 2, 0, 2, 3, 4, 5, 6] }
      (.Attribute (some [1, 1, 1, 1, 0, 0, 0])) 2 = 0 ∧
    GetFeatureIDFromFace { vertexCount := 9, indices := none }
      (.Attribute (some [1, 1, 1, 2, 2, 2, 0, 0, 0])) 1 = 2 := by
  constructor
  · rw [C3_attribute_feature_id
      { vertexCount := 7, indices := some [0, 1, 2, 0, 2, 3, 4, 5, 6] }
      [1, 1, 1, 1, 0, 0, 0] 2 (by decide) (by decide) (by decide)]
    decide
  · rw [C3_attribute_feature_id { vertexCount := 9, indices := none }
      [1, 1, 1, 2, 2, 2, 0, 0, 0] 1 (by decide) (by decide) (by decide)]
    decide

/-- Follows the words of the spec, for comparison with the behaviour
fixed by the repository tests: the implicit feature ID written as
floor(firstVertex / (vertexCount / featureCount)), the division read over
the rationals. -/
def specImplicitID (v vertexCount featureCount : Int) : Int :=
  Rat.floor ((v : Rat) / ((vertexCount : Rat) / (featureCount : Rat)))

/-- C4 counterexample: on the indexed fixture of the repository tests
(vertexCount 4, featureCount 6, indices [2, 1, 0, 3, 4, 5]) face 0 has
first vertex 2 and the code (as pinned by the test) yields feature ID 2,
while the formula floor(v / (vertexCount / featureCount)) claimed for
every implicit set yields 3. -/
theorem C4_formula_counterexample :
    GetFeatureIDFromFace
      { vertexCount := 4, indices := some [2, 1, 0, 3, 4, 5] }
      (.Implicit 6) 0 = 2 ∧
    specImplicitID 2 4 6 = 3 ∧ (2 : Int) ≠ 3 := by
  refine ⟨by decide, ?_, by decide⟩
  unfold specImplicitID
  norm_num [Rat.floor_def']

/-- C4 (amended): for an implicit set whose featureCount exceeds the
first vertex of a valid face, GetFeatureIDFromFace returns that first
vertex itself; this agrees with floor(v / (vertexCount / featureCount))
whenever vertexCount = featureCount, as in the V = 6, F = 6 fixtures. -/
theorem C4_implicit_feature_id (t : Topology) (fc : Int) (f : Int)
    (h0 : 0 ≤ f) (h1 : f < (numFaces t : Int))
    (h2 : GetFirstVertexFromFace t f < fc) :
    GetFeatureIDFromFace t (.Implicit fc) f = GetFirstVertexFromFace t f := by
  have hv := firstVertex_nonneg t f h0 h1
  rw [getFeatureIDFromFace_eq, if_neg (by omega)]
  simp only [GetFeatureIDForVertex]
  rw [if_pos ⟨hv, h2⟩]

/-- C4 witness: the non-indexed fixture (vertexCount 6, featureCount 6,
faces 0 and 1 yield IDs 0 and 3) and the indexed fixture (vertexCount 4,
featureCount 6, faces 0 and 1 yield IDs 2 and 3). -/
theorem C4_implicit_feature_id_witness :
    GetFeatureIDFromFace { vertexCount := 6, indices := none }
      (.Implicit 6) 0 = 0 ∧
    GetFeatureIDFromFace { vertexCount := 6, indices := none }
      (.Implicit 6) 1 = 3 ∧
    GetFeatureIDFromFace
      { vertexCount := 4, indices := some [2, 1, 0, 3, 4, 5] }
      (.Implicit 6) 1 = 3 := by
  refine ⟨?_, ?_, ?_⟩
  · rw [C4_implicit_feature_id { vertexCount := 6, indices := none } 6 0
      (by decide) (by decide) (by decide)]
    decide
  · rw [C4_implicit_feature_id { vertexCount := 6, indices := none } 6 1
      (by decide) (by decide) (by decide)]
    decide
  · rw [C4_implicit_feature_id
      { vertexCount := 4, indices := some [2, 1, 0, 3, 4, 5] } 6 1
      (by decide) (by decide) (by decide)]
    decide

/-- The texture fixture exactly as written in the claim: 4 vertices with
UVs 0, 1/4, 1/2 and 3/4 over the 4-texel image 0, 1, 2, 3. -/
def claimTextureFixture : TextureData where
  width := 4
  height := 1
  pixels := [0, 1, 2, 3]
  texCoords := [(mkRat 0 1, mkRat 0 1), (mkRat 1 4, mkRat 0 1),
    (mkRat 1 2, mkRat 0 1), (mkRat 3 4, mkRat 0 1)]

/-- C5 counterexample: the example stated in the claim (4 vertices with
UVs 0, 1/4, 1/2, 3/4 on a 4-texel image, without indices) has only one
face (numFaces = 4 / 3 = 1), so face 1 is out of bounds and
GetFeatureIDFromFace returns the sentinel -1, not the claimed ID 3. -/
theorem C5_texture_counterexample :
    GetFeatureIDFromFace { vertexCount := 4, indices := none }
      (.Texture (some claimTextureFixture)) 1 = -1 ∧
    (-1 : Int) ≠ 3 := ⟨by decide, by decide⟩

/-- C5 (amended): for a texture-kind set with valid data and a valid face
whose first vertex has a texture coordinate, GetFeatureIDFromFace equals
the image value sampled nearest-neighbour at the UV of the first vertex
of the face. -/
theorem C5_texture_feature_id (t : Topology) (td : TextureData) (f : Int)
    (h0 : 0 ≤ f) (h1 : f < (numFaces t : Int))
    (h2 : GetFirstVertexFromFace t f < (td.texCoords.length : Int)) :
    GetFeatureIDFromFace t (.Texture (some td)) f =
      nearestSample td
        (td.texCoords.getD (GetFirstVertexFromFace t f).toNat (0, 0)) := by
  have hv := firstVertex_nonneg t f h0 h1
  rw [getFeatureIDFromFace_eq, if_neg (by omega)]
  simp only [GetFeatureIDForVertex]
  rw [if_pos ⟨hv, h2⟩]

/-- The without-indices texture fixture of the repository tests: six
vertices, the last three at UV (3/4, 0), over the 4-texel image
0, 1, 2, 3. -/
def textureFixture : TextureData where
  width := 4
  height := 1
  pixels := [0, 1, 2, 3]
  texCoords := [(mkRat 0 1, mkRat 0 1), (mkRat 0 1, mkRat 0 1),
    (mkRat 0 1, mkRat 0 1), (mkRat 3 4, mkRat 0 1),
    (mkRat 3 4, mkRat 0 1), (mkRat 3 4, mkRat 0 1)]

/-- C5 witness: on the without-indices fixture of the repository tests,
face 0 (first vertex 0, UV 0) yields ID 0 and face 1 (first vertex 3,
UV 3/4) yields ID 3. -/
theorem C5_texture_feature_id_witness :
    GetFeatureIDFromFace { vertexCount := 6, indices := none }
      (.Texture (some textureFixture)) 0 = 0 ∧
    GetFeatureIDFromFace { vertexCount := 6, indices := none }
      (.Texture (some textureFixture)) 1 = 3 := by
  constructor
  · rw [C5_texture_feature_id { vertexCount := 6, indices := none }
      textureFixture 0 (by decide) (by decide) (by decide)]
    decide
  · rw [C5_texture_feature_id { vertexCount := 6, indices := none }
      textureFixture 1 (by decide) (by decide) (by decide)]
    decide

/-- The kind tag of a feature-ID set, mirroring ECesiumFeatureIdType. -/
inductive ECesiumFeatureIdType where
  | None
  | Attribute
  | Texture
  | Implicit
deriving DecidableEq, Repr

/-- Modelled from the spec: the raw EXT mesh features extension block of
one feature-ID set: a declared feature count, an optional attribute
reference and an optional texture reference; the inner option of each
reference records whether the referenced accessor resolves validly. -/
structure ExtFeatureId where
  featureCount : Int
  attributeData : Option (Option (List Int))
  textureData : Option (Option TextureData)
deriving DecidableEq, Repr

/-- Modelled from the spec: the constructor of FCesiumFeatureIdSet
classifies an extension feature-ID block: an attribute reference wins,
then a texture reference, else the set is implicit with the declared
feature count. -/
def classifyFeatureId (e : ExtFeatureId) : FeatureIdSetData :=
  match e.attributeData with
  | some a => .Attribute a
  | none =>
    match e.textureData with
    | some td => .Texture td
    | none => .Implicit e.featureCount

/-- The kind of a constructed feature-ID set. -/
def GetFeatureIDType : FeatureIdSetData → ECesiumFeatureIdType
  | .Attribute _ => .Attribute
  | .Texture _ => .Texture
  | .Implicit _ => .Implicit

/-- Modelled from the spec: GetFeatureIDSets returns the ordered sequence
of feature-ID sets constructed from the extension blocks of the
primitive. -/
def GetFeatureIDSets (ext : List ExtFeatureId) : List FeatureIdSetData :=
  ext.map classifyFeatureId

/-- Modelled from the spec: GetFeatureIDSetsOfType filters the sequence
of feature-ID sets of the primitive by kind. -/
def GetFeatureIDSetsOfType (ext : List ExtFeatureId)
    (k : ECesiumFeatureIdType) : List FeatureIdSetData :=
  (GetFeatureIDSets ext).filter (fun s => decide (GetFeatureIDType s = k))

/-- C6: GetFeatureIDSetsOfType returns exactly the feature-ID sets of the
requested kind, in declaration order (it is a sublist of the full
sequence containing every set of that kind and nothing else), and a
primitive declaring zero feature-ID sets yields the empty sequence. -/
theorem C6_classification (ext : List ExtFeatureId)
    (k : ECesiumFeatureIdType) :
    List.Sublist (GetFeatureIDSetsOfType ext k) (GetFeatureIDSets ext) ∧
    (∀ s, s ∈ GetFeatureIDSetsOfType ext k → GetFeatureIDType s = k) ∧
    (∀ s, s ∈ GetFeatureIDSets ext → GetFeatureIDType s = k →
      s ∈ GetFeatureIDSetsOfType ext k) ∧
    GetFeatureIDSets [] = [] := by
  refine ⟨List.filter_sublist _, ?_, ?_, rfl⟩
  · intro s hs
    have h := List.of_mem_filter hs
    simpa using h
  · intro s hs hk
    exact List.mem_filter.2 ⟨hs, by simp [hk]⟩

/-- A primitive declaring an attribute set, a texture set (whose backing
accessor does not resolve) and an implicit set, in that order. -/
def extensionFixture : List ExtFeatureId :=
  [{ featureCount := 1, attributeData := some (some [0, 0, 0]), textureData := none },
   { featureCount := 3, attributeData := none, textureData := some none },
   { featureCount := 3, attributeData := none, textureData := none }]

/-- C6 witness: on a primitive declaring an attribute set, a texture set
and an implicit set, the attribute filter returns the attribute set. -/
theorem C6_classification_witness :
    FeatureIdSetData.Attribute (some [0, 0, 0]) ∈
      GetFeatureIDSetsOfType extensionFixture
        ECesiumFeatureIdType.Attribute := by
  exact (C6_classification extensionFixture
      ECesiumFeatureIdType.Attribute).2.2.1
    (FeatureIdSetData.Attribute (some [0, 0, 0])) (by decide) (by decide)

/-- C7: GetFirstVertexFromFace and GetFeatureIDFromFace are deterministic
pure functions of their inputs: two calls with equal topology, feature-ID
set and face index return equal outputs.  In this embedding every
operation is a total function of its arguments, so no call can mutate its
inputs. -/
theorem C7_deterministic (t t2 : Topology) (s s2 : FeatureIdSetData)
    (f f2 : Int) (ht : t = t2) (hs : s = s2) (hf : f = f2) :
    GetFirstVertexFromFace t f = GetFirstVertexFromFace t2 f2 ∧
    GetFeatureIDFromFace t s f = GetFeatureIDFromFace t2 s2 f2 := by
  subst ht
  subst hs
  subst hf
  exact ⟨rfl, rfl⟩

/-- C7 witness: two identical calls on the indexed fixture agree. -/
theorem C7_deterministic_witness :
    GetFirstVertexFromFace
      { vertexCount := 6, indices := some [0, 1, 2, 0, 2, 3] } 1 =
    GetFirstVertexFromFace
      { vertexCount := 6, indices := some [0, 1, 2, 0, 2, 3] } 1 ∧
    GetFeatureIDFromFace
      { vertexCount := 6, indices := some [0, 1, 2, 0, 2, 3] }
      (.Implicit 6) 1 =
    GetFeatureIDFromFace
      { vertexCount := 6, indices := some [0, 1, 2, 0, 2, 3] }
      (.Implicit 6) 1 :=
  C7_deterministic
    { vertexCount := 6, indices := some [0, 1, 2, 0, 2, 3] }
    { vertexCount := 6, indices := some [0, 1, 2, 0, 2, 3] }
    (.Implicit 6) (.Implicit 6) 1 1 rfl rfl rfl

/-- Truncation of a floating-point value toward zero, the behaviour of
the C++ cast from double to a signed integer type on in-range values.
Double values are embedded as rationals. -/
def ratTrunc (f : Rat) : Int :=
  if 0 ≤ f then Rat.floor f else -(Rat.floor (-f))

/-- Truncating an integer-valued rational returns the integer. -/
theorem ratTrunc_intCast (n : Int) : ratTrunc ((n : Int) : Rat) = n := by
  have hf : ∀ m : Int, Rat.floor ((m : Int) : Rat) = m := by
    intro m
    rw [Rat.floor_def']
    simp
  unfold ratTrunc
  split
  · exact hf n
  · rw [show -((n : Int) : Rat) = (((-n : Int) : Int) : Rat) by push_cast; ring,
      hf]
    ring

/-- The smallest value of a 32-bit signed integer,
TNumericLimits int32 Min. -/
def int32Min : Int := -(2 ^ 31)

/-- The largest value of a 32-bit signed integer,
TNumericLimits int32 Max. -/
def int32Max : Int := 2 ^ 31 - 1

/-- clampedAdd from CesiumOriginShiftComponent.cpp: the truncation of the
double f plus the 32-bit integer i, computed in 64-bit arithmetic and
clamped to the 32-bit signed range.  The 64-bit intermediate values are
embedded as unbounded integers; noOverflow64 characterises the inputs for
which this embedding is faithful to the C++ code (outside it the C++
conversions and addition overflow, which is undefined behaviour). -/
def clampedAdd (f : Rat) (i : Int) : Int :=
  max int32Min (min int32Max (ratTrunc f + i))

/-- Whether a value is representable as a 64-bit signed integer. -/
def inInt64 (n : Int) : Prop := -(2 ^ 63) ≤ n ∧ n ≤ 2 ^ 63 - 1

instance (n : Int) : Decidable (inInt64 n) := instDecidableAnd

/-- Whether the 64-bit intermediate computation of clampedAdd stays in
range: the truncation of f must fit a 64-bit signed integer (the C++ cast
is undefined otherwise) and so must its sum with i. -/
def noOverflow64 (f : Rat) (i : Int) : Prop :=
  inInt64 (ratTrunc f) ∧ inInt64 (ratTrunc f + i)

instance (f : Rat) (i : Int) : Decidable (noOverflow64 f i) := instDecidableAnd

/-- C8 counterexample: at f = 2^63 - 1024 (exactly representable as an
IEEE double) and i = 2^31 - 1 (a valid 32-bit signed integer), the 64-bit
intermediate sum trunc(f) + i exceeds the largest 64-bit signed integer,
so clampedAdd is not computed without overflow in 64-bit arithmetic for
every double, contrary to the claim. -/
theorem C8_overflow_counterexample :
    ¬ noOverflow64 (((2 ^ 63 - 1024 : Int) : Rat)) (2 ^ 31 - 1) := by
  intro h
  have h2 := h.2
  rw [ratTrunc_intCast] at h2
  have h3 := h2.2
  norm_num [inInt64] at h3

/-- C8 (amended): for every double f and 32-bit integer i for which the
64-bit intermediate computation stays in range (noOverflow64, in
particular whenever the magnitude of f is at most 2^62), clampedAdd
returns the truncation of f plus i clamped to the 32-bit signed interval:
the result lies in [-2^31, 2^31 - 1], equals trunc(f) + i when that sum
is in the interval, and equals the nearer bound otherwise. -/
theorem C8_clampedAdd (f : Rat) (i : Int) (_h : noOverflow64 f i) :
    int32Min ≤ clampedAdd f i ∧ clampedAdd f i ≤ int32Max ∧
    (int32Min ≤ ratTrunc f + i → ratTrunc f + i ≤ int32Max →
      clampedAdd f i = ratTrunc f + i) ∧
    (ratTrunc f + i < int32Min → clampedAdd f i = int32Min) ∧
    (int32Max < ratTrunc f + i → clampedAdd f i = int32Max) := by
  have e1 : int32Min = -2147483648 := by norm_num [int32Min]
  have e2 : int32Max = 2147483647 := by norm_num [int32Max]
  unfold clampedAdd
  rw [e1, e2]
  omega

/-- C8 witness: 5.0 plus 7 does not overflow and clamps to 12. -/
theorem C8_clampedAdd_witness :
    noOverflow64 (((5 : Int) : Rat)) 7 ∧
    clampedAdd (((5 : Int) : Rat)) 7 = 12 := by
  have hno : noOverflow64 (((5 : Int) : Rat)) 7 := by
    unfold noOverflow64
    rw [ratTrunc_intCast]
    norm_num [inInt64]
  refine ⟨hno, ?_⟩
  have h := (C8_clampedAdd (((5 : Int) : Rat)) 7 hno).2.2.1
  rw [ratTrunc_intCast] at h
  have h2 := h (by norm_num [int32Min]) (by norm_num [int32Max])
  rw [h2]
  norm_num

/-- The origin-shift mode enumeration used by
CesiumOriginShiftComponent.cpp. -/
inductive ECesiumOriginShiftMode where
  | Disabled
  | ChangeCesiumGeoreference
  | ChangeWorldOriginLocation
  | SwitchSubLevelsOnly
deriving DecidableEq, Repr

/-- A three-component double vector (FVector), embedded over the
rationals. -/
structure Vec3 where
  x : Rat
  y : Rat
  z : Rat
deriving DecidableEq, Repr

/-- FVector SquaredLength. -/
def sqLen (v : Vec3) : Rat := v.x * v.x + v.y * v.y + v.z * v.z

/-- A registered sub-level as inspected by TickComponent: valid records
whether the weak pointer and its sub-level component both resolve,
enabled the component flag; levelDistance is the distance from the actor
ECEF position to the sub-level origin (the geodetic conversion and the
euclidean distance are computed by engine collaborators outside the
reviewed sources, so the resulting distance is taken as an input);
loadRadius is the sub-level load radius and id identifies the level
instance. -/
structure SubLevelInfo where
  id : Nat
  valid : Bool
  enabled : Bool
  levelDistance : Rat
  loadRadius : Rat
deriving DecidableEq, Repr

/-- Whether the scan of TickComponent accepts a sub-level as the new
closest active level: it must resolve, be enabled, lie within its load
radius, and be strictly closer than the best so far (none plays the role
of the initial infinite distance). -/
def acceptSubLevel (l : SubLevelInfo) (best : Option (Nat × Rat)) : Bool :=
  l.valid && l.enabled && decide (l.levelDistance < l.loadRadius) &&
    (match best with
     | none => true
     | some b => decide (l.levelDistance < b.2))

/-- The fold of the sub-level scan of TickComponent. -/
def closestSubLevelAux :
    List SubLevelInfo → Option (Nat × Rat) → Option (Nat × Rat)
  | [], best => best
  | l :: rest, best =>
      closestSubLevelAux rest
        (if acceptSubLevel l best then some (l.id, l.levelDistance) else best)

/-- The closest active sub-level computed by the scan of TickComponent,
or none. -/
def closestSubLevel (ls : List SubLevelInfo) : Option Nat :=
  (closestSubLevelAux ls none).map Prod.fst

/-- The state read and written by UCesiumOriginShiftComponent
TickComponent.  The component fields Mode and Distance, the resolved
collaborators (globe anchor, georeference, sub-level switcher, world,
owner actor) and the state they carry are flattened into one record;
a false validity flag stands for a null or invalid object. -/
structure OriginShiftState where
  isActive : Bool
  Mode : ECesiumOriginShiftMode
  Distance : Rat
  hasGlobeAnchor : Bool
  hasGeoreference : Bool
  hasSwitcher : Bool
  sublevels : List SubLevelInfo
  targetSubLevel : Option Nat
  currentSubLevel : Option Nat
  actorValid : Bool
  actorLocation : Vec3
  actorEcef : Vec3
  georefOriginEcef : Vec3
  worldValid : Bool
  worldOriginLocation : Int × Int × Int
deriving DecidableEq, Repr

/-- The new world origin computed by TickComponent in mode
ChangeWorldOriginLocation: each component of the actor location is
truncated to a 32-bit integer (the cast int32(WorldPosition.X)) and added
to the old origin component with clampedAdd. -/
def newWorldOrigin (s : OriginShiftState) : Int × Int × Int :=
  (clampedAdd ((s.worldOriginLocation.1 : Int) : Rat)
     (ratTrunc s.actorLocation.x),
   clampedAdd ((s.worldOriginLocation.2.1 : Int) : Rat)
     (ratTrunc s.actorLocation.y),
   clampedAdd ((s.worldOriginLocation.2.2 : Int) : Rat)
     (ratTrunc s.actorLocation.z))

/-- UCesiumOriginShiftComponent TickComponent.  The early returns mirror
the source: inactive or disabled, missing globe anchor, georeference or
switcher, and the quick bail when no sub-levels are registered and the
mode shifts nothing.  The scan result is stored as the switcher target
(SetTargetSubLevel runs before the doOriginShift test, which therefore
reads the just-computed target, not the entry state).  The origin shift
itself requires a null target and current sub-level, a mode other than
SwitchSubLevelsOnly, a valid owner actor and an actor location whose
squared length exceeds Distance squared. -/
def TickComponent (s : OriginShiftState) : OriginShiftState :=
  if ¬s.isActive ∨ s.Mode = .Disabled then s
  else if ¬s.hasGlobeAnchor then s
  else if ¬s.hasGeoreference then s
  else if ¬s.hasSwitcher then s
  else if s.sublevels.isEmpty ∧ s.Mode ≠ .ChangeCesiumGeoreference ∧
      s.Mode ≠ .ChangeWorldOriginLocation then s
  else if (closestSubLevel s.sublevels = none ∧ s.currentSubLevel = none ∧
      s.Mode ≠ .SwitchSubLevelsOnly) ∧ s.actorValid ∧
      s.Distance * s.Distance < sqLen s.actorLocation then
    if s.Mode = .ChangeCesiumGeoreference then
      { s with targetSubLevel := closestSubLevel s.sublevels,
               georefOriginEcef := s.actorEcef }
    else if s.Mode = .ChangeWorldOriginLocation then
      if s.worldValid ∧ s.actorValid then
        if newWorldOrigin s ≠ s.worldOriginLocation then
          { s with targetSubLevel := closestSubLevel s.sublevels,
                   worldOriginLocation := newWorldOrigin s }
        else { s with targetSubLevel := closestSubLevel s.sublevels }
      else { s with targetSubLevel := closestSubLevel s.sublevels }
    else { s with targetSubLevel := closestSubLevel s.sublevels }
  else { s with targetSubLevel := closestSubLevel s.sublevels }

/-- A state exercising the gap in the claim: on entry the switcher target
sub-level is non-null, but no registered sub-level exists, so the tick
stores a null target and then shifts the georeference origin. -/
def entryTargetState : OriginShiftState where
  isActive := true
  Mode := .ChangeCesiumGeoreference
  Distance := 1
  hasGlobeAnchor := true
  hasGeoreference := true
  hasSwitcher := true
  sublevels := []
  targetSubLevel := some 0
  currentSubLevel := none
  actorValid := true
  actorLocation := { x := 10, y := 0, z := 0 }
  actorEcef := { x := 1, y := 2, z := 3 }
  georefOriginEcef := { x := 0, y := 0, z := 0 }
  worldValid := true
  worldOriginLocation := (0, 0, 0)

/-- C9 counterexample: in entryTargetState the sub-level switcher has a
non-null target sub-level when TickComponent is entered, yet the tick
changes the georeference origin: SetTargetSubLevel runs before the
doOriginShift test, so the entry target is overwritten by the null scan
result and does not inhibit the shift. -/
theorem C9_entry_target_counterexample :
    entryTargetState.targetSubLevel ≠ none ∧
    (TickComponent entryTargetState).georefOriginEcef ≠
      entryTargetState.georefOriginEcef := by
  constructor
  · decide
  · have h : (TickComponent entryTargetState).georefOriginEcef =
        entryTargetState.actorEcef := by
      unfold TickComponent
      rw [if_neg (by decide), if_neg (by decide), if_neg (by decide),
        if_neg (by decide), if_neg (by decide), if_pos, if_pos (by decide)]
      refine ⟨⟨rfl, rfl, by decide⟩, by decide, ?_⟩
      show (entryTargetState.Distance * entryTargetState.Distance <
        sqLen entryTargetState.actorLocation)
      norm_num [entryTargetState, sqLen]
    rw [h]
    intro heq
    have hx := congrArg Vec3.x heq
    norm_num [entryTargetState] at hx

/-- C9 (amended): TickComponent changes neither the georeference origin
nor the world origin location when the component is inactive, when the
mode is Disabled or SwitchSubLevelsOnly, when the switcher has a non-null
current sub-level or the target sub-level computed by this tick (the
closest enabled in-range registered sub-level) is non-null, or when the
squared length of the owner actor location does not exceed Distance
squared. -/
theorem C9_no_origin_change (s : OriginShiftState)
    (h : s.isActive = false ∨ s.Mode = .Disabled ∨
      s.Mode = .SwitchSubLevelsOnly ∨ s.currentSubLevel ≠ none ∨
      closestSubLevel s.sublevels ≠ none ∨
      sqLen s.actorLocation ≤ s.Distance * s.Distance) :
    (TickComponent s).georefOriginEcef = s.georefOriginEcef ∧
    (TickComponent s).worldOriginLocation = s.worldOriginLocation := by
  unfold TickComponent
  by_cases c1 : ¬s.isActive ∨ s.Mode = .Disabled
  · rw [if_pos c1]
    exact ⟨rfl, rfl⟩
  rw [if_neg c1]
  by_cases c2 : ¬s.hasGlobeAnchor
  · rw [if_pos c2]
    exact ⟨rfl, rfl⟩
  rw [if_neg c2]
  by_cases c3 : ¬s.hasGeoreference
  · rw [if_pos c3]
    exact ⟨rfl, rfl⟩
  rw [if_neg c3]
  by_cases c4 : ¬s.hasSwitcher
  · rw [if_pos c4]
    exact ⟨rfl, rfl⟩
  rw [if_neg c4]
  by_cases c5 : s.sublevels.isEmpty ∧ s.Mode ≠ .ChangeCesiumGeoreference ∧
      s.Mode ≠ .ChangeWorldOriginLocation
  · rw [if_pos c5]
    exact ⟨rfl, rfl⟩
  rw [if_neg c5]
  by_cases c6 : (closestSubLevel s.sublevels = none ∧
      s.currentSubLevel = none ∧ s.Mode ≠ .SwitchSubLevelsOnly) ∧
      s.actorValid ∧ s.Distance * s.Distance < sqLen s.actorLocation
  · exfalso
    obtain ⟨⟨htarget, hcurrent, hmode⟩, hvalid, hfar⟩ := c6
    rcases h with h | h | h | h | h | h
    · exact c1 (Or.inl (by simp [h]))
    · exact c1 (Or.inr h)
    · exact hmode h
    · exact h hcurrent
    · exact h htarget
    · exact absurd hfar (not_lt.2 h)
  · rw [if_neg c6]
    exact ⟨rfl, rfl⟩

/-- C9 witness: a disabled component ticks without changing the
georeference origin or the world origin. -/
theorem C9_no_origin_change_witness :
    (TickComponent { entryTargetState with Mode := .Disabled }).georefOriginEcef =
      ({ entryTargetState with Mode := .Disabled } :
        OriginShiftState).georefOriginEcef ∧
    (TickComponent { entryTargetState with Mode := .Disabled }).worldOriginLocation =
      ({ entryTargetState with Mode := .Disabled } :
        OriginShiftState).worldOriginLocation :=
  C9_no_origin_change { entryTargetState with Mode := .Disabled }
    (Or.inr (Or.inl rfl))

/-- The state read and written by UCesiumOriginShiftComponent
ResolveGlobeAnchor: whether the owner actor is valid, the globe anchor
component the owner already has (none when FindComponentByClass finds no
valid UCesiumGlobeAnchorComponent), the identifier the engine would
assign to a component newly created by AddComponentByClass, and the
GlobeAnchor field of the origin-shift component. -/
structure GlobeAnchorResolveState where
  ownerValid : Bool
  ownerAnchor : Option Nat
  newComponentId : Nat
  GlobeAnchor : Option Nat
deriving DecidableEq, Repr

/-- UCesiumOriginShiftComponent ResolveGlobeAnchor: clear the GlobeAnchor
field, bail out when the owner is invalid, otherwise adopt the owner
existing globe anchor component, or create a new one and register it on
the owner. -/
def ResolveGlobeAnchor (c : GlobeAnchorResolveState) :
    GlobeAnchorResolveState :=
  if ¬c.ownerValid then { c with GlobeAnchor := none }
  else
    match c.ownerAnchor with
    | some anchorId => { c with GlobeAnchor := some anchorId }
    | none =>
        { c with GlobeAnchor := some c.newComponentId,
                 ownerAnchor := some c.newComponentId }

/-- UCesiumOriginShiftComponent OnRegister calls ResolveGlobeAnchor after
the engine base-class registration (modelled as the identity). -/
def OnRegister (c : GlobeAnchorResolveState) : GlobeAnchorResolveState :=
  ResolveGlobeAnchor c

/-- UCesiumOriginShiftComponent BeginPlay calls ResolveGlobeAnchor after
the engine base-class begin-play (modelled as the identity). -/
def BeginPlay (c : GlobeAnchorResolveState) : GlobeAnchorResolveState :=
  ResolveGlobeAnchor c

/-- C10: after ResolveGlobeAnchor (as run by both OnRegister and
BeginPlay) on a valid owner, the GlobeAnchor field is non-null: it is the
owner existing globe anchor component when one exists, otherwise the
newly added one (which is also registered on the owner); on an invalid
owner the GlobeAnchor field is null. -/
theorem C10_resolve_globe_anchor (c : GlobeAnchorResolveState) :
    (c.ownerValid = true →
      (ResolveGlobeAnchor c).GlobeAnchor ≠ none ∧
      (∀ anchorId, c.ownerAnchor = some anchorId →
        (ResolveGlobeAnchor c).GlobeAnchor = some anchorId) ∧
      (c.ownerAnchor = none →
        (ResolveGlobeAnchor c).GlobeAnchor = some c.newComponentId ∧
        (ResolveGlobeAnchor c).ownerAnchor = some c.newComponentId)) ∧
    (c.ownerValid = false → (ResolveGlobeAnchor c).GlobeAnchor = none) ∧
    OnRegister c = ResolveGlobeAnchor c ∧
    BeginPlay c = ResolveGlobeAnchor c := by
  refine ⟨?_, ?_, rfl, rfl⟩
  · intro hv
    unfold ResolveGlobeAnchor
    rw [if_neg (by simp [hv])]
    cases hA : c.ownerAnchor with
    | some anchorId =>
        refine ⟨by simp, ?_, ?_⟩
        · intro b hb
          cases hb
          simp
        · intro hb
          cases hb
    | none =>
        refine ⟨by simp, ?_, ?_⟩
        · intro b hb
          cases hb
        · intro _
          exact ⟨rfl, rfl⟩
  · intro hv
    unfold ResolveGlobeAnchor
    rw [if_pos (by simp [hv])]

/-- A valid owner that already has a globe anchor component. -/
def anchorStateExisting : GlobeAnchorResolveState :=
  { ownerValid := true, ownerAnchor := some 5, newComponentId := 9, GlobeAnchor := none }

/-- A valid owner without a globe anchor component. -/
def anchorStateFresh : GlobeAnchorResolveState :=
  { ownerValid := true, ownerAnchor := none, newComponentId := 9, GlobeAnchor := none }

/-- An invalid owner. -/
def anchorStateInvalidOwner : GlobeAnchorResolveState :=
  { ownerValid := false, ownerAnchor := some 5, newComponentId := 9, GlobeAnchor := some 5 }

/-- C10 witness: a valid owner with an existing anchor keeps it, a valid
owner without one receives the fresh component, and an invalid owner
leaves the field null. -/
theorem C10_resolve_globe_anchor_witness :
    (ResolveGlobeAnchor anchorStateExisting).GlobeAnchor = some 5 ∧
    (ResolveGlobeAnchor anchorStateFresh).GlobeAnchor = some 9 ∧
    (ResolveGlobeAnchor anchorStateInvalidOwner).GlobeAnchor = none := by
  refine ⟨?_, ?_, ?_⟩
  · exact ((C10_resolve_globe_anchor anchorStateExisting).1 rfl).2.1 5 rfl
  · exact (((C10_resolve_globe_anchor anchorStateFresh).1 rfl).2.2 rfl).1
  · exact (C10_resolve_globe_anchor anchorStateInvalidOwner).2.1 rfl
